import Mathlib

/-!
Shallow embedding of the TypeScript declaration file
src/types/lib/sequelize.d.ts of the sequelize repository.

The source file contains only type declarations (interfaces, a type
alias, a class with member signatures, and free function signatures).
We embed its declared surface as data: a syntax of TypeScript types,
interfaces as lists of fields, and function-like members as
signatures. Every definition below transcribes the source file; line
numbers in comments refer to src/types/lib/sequelize.d.ts.
-/

namespace SequelizeDTS

/-- Syntax of the TypeScript types that occur in the source file.
Anonymous object types are embedded as chains of objField ending in
objNil; an index signature type, such as the models dictionary, is
embedded with indexSig; generic is a named type applied to one type
argument; fn and fn2 are function types of one and two parameters. -/
inductive Ty where
  | str : Ty
  | num : Ty
  | boolean : Ty
  | undef : Ty
  | voidTy : Ty
  | nullTy : Ty
  | unknown : Ty
  | objectTy : Ty
  | strLit : String → Ty
  | named : String → Ty
  | generic : String → Ty → Ty
  | array : Ty → Ty
  | pair : Ty → Ty → Ty
  | union : Ty → Ty → Ty
  | fn : Ty → Ty → Ty
  | fn2 : Ty → Ty → Ty → Ty
  | tyVar : String → Ty
  | objNil : Ty
  | objField : String → Bool → Bool → Ty → Ty → Ty
  | indexSig : Ty → Ty
  | thisTy : Ty
  deriving DecidableEq

/-- Promise of a result type, as written Promise of t in the source. -/
def Ty.promise (t : Ty) : Ty := Ty.generic "Promise" t

/-- Whether a declared type is a Promise type. -/
def Ty.isPromise : Ty → Bool
  | Ty.generic "Promise" _ => true
  | _ => false

/-- Whether a named type with the given name occurs anywhere inside a
declared type. -/
def Ty.mentionsName (s : String) : Ty → Bool
  | Ty.strLit _ => false
  | Ty.named n => n == s
  | Ty.generic n a => n == s || a.mentionsName s
  | Ty.array a => a.mentionsName s
  | Ty.pair a b => a.mentionsName s || b.mentionsName s
  | Ty.union a b => a.mentionsName s || b.mentionsName s
  | Ty.fn a b => a.mentionsName s || b.mentionsName s
  | Ty.fn2 a b c => a.mentionsName s || b.mentionsName s || c.mentionsName s
  | Ty.objField _ _ _ t r => t.mentionsName s || r.mentionsName s
  | Ty.indexSig a => a.mentionsName s
  | _ => false

/-- The members of a union type, flattened. -/
def Ty.unionMembers : Ty → List Ty
  | Ty.union a b => a.unionMembers ++ b.unionMembers
  | t => [t]

/-- A field of an interface: its name, whether the source marks it
optional, whether the source marks it readonly, whether it is written
with method syntax, and its declared type. -/
structure Field where
  name : String
  optional : Bool
  readonly : Bool
  isMethod : Bool
  ty : Ty
  deriving DecidableEq

/-- A parameter of a function-like signature: its name, whether it is
optional, whether it is a rest parameter, and its declared type. -/
structure Param where
  name : String
  optional : Bool
  rest : Bool
  ty : Ty
  deriving DecidableEq

/-- A type parameter of a generic signature, with its extends
constraint when the source writes one. -/
structure TypeParam where
  name : String
  constraintTy : Option Ty
  deriving DecidableEq

/-- A function-like declared member: a name, type parameters,
parameters, the declared return type, and whether the declaration
carries a function body (in a declaration file none does). -/
structure MethodSig where
  name : String
  typeParams : List TypeParam
  params : List Param
  ret : Ty
  hasBody : Bool
  deriving DecidableEq

/-- An interface declaration: its name, the name it extends when an
extends clause is present, and its declared fields. -/
structure Interface where
  name : String
  extendsClause : Option String
  fields : List Field
  deriving DecidableEq

/-- The declared type of the named field of an interface. -/
def fieldTy (i : Interface) (fname : String) : Option Ty :=
  (i.fields.find? (fun f => f.name == fname)).map Field.ty

-- ---------------------------------------------------------------
-- Interfaces of the source file, in source order.
-- ---------------------------------------------------------------

/-- Lines 38 to 54: interface SyncOptions extends Logging. -/
def SyncOptions : Interface :=
  ⟨"SyncOptions", some "Logging",
   [⟨"force", true, false, false, Ty.boolean⟩,
    ⟨"match", true, false, false, Ty.named "RegExp"⟩,
    ⟨"schema", true, false, false, Ty.str⟩]⟩

/-- Line 56: interface DefaultSetOptions, empty. -/
def DefaultSetOptions : Interface :=
  ⟨"DefaultSetOptions", none, []⟩

/-- Lines 61 to 87: interface PoolOptions. The validate member is
written with method syntax, with one optional parameter client of type
unknown and return type boolean. -/
def PoolOptions : Interface :=
  ⟨"PoolOptions", none,
   [⟨"max", true, false, false, Ty.num⟩,
    ⟨"min", true, false, false, Ty.num⟩,
    ⟨"idle", true, false, false, Ty.num⟩,
    ⟨"acquire", true, false, false, Ty.num⟩,
    ⟨"validate", true, false, true, Ty.fn Ty.unknown Ty.boolean⟩]⟩

/-- Lines 89 to 95: interface ConnectionOptions. -/
def ConnectionOptions : Interface :=
  ⟨"ConnectionOptions", none,
   [⟨"host", true, false, false, Ty.str⟩,
    ⟨"port", true, false, false, Ty.union Ty.str Ty.num⟩,
    ⟨"username", true, false, false, Ty.str⟩,
    ⟨"password", true, false, false, Ty.str⟩,
    ⟨"database", true, false, false, Ty.str⟩]⟩

/-- Lines 100 to 104: interface ReplicationOptions. Both fields are
required. -/
def ReplicationOptions : Interface :=
  ⟨"ReplicationOptions", none,
   [⟨"read", false, false, false, Ty.array (Ty.named "ConnectionOptions")⟩,
    ⟨"write", false, false, false, Ty.named "ConnectionOptions"⟩]⟩

/-- Lines 116 to 121: the anonymous pool object type inside Config,
every field readonly and required. -/
def configPoolTy : Ty :=
  Ty.objField "acquire" true false Ty.num
    (Ty.objField "idle" true false Ty.num
      (Ty.objField "max" true false Ty.num
        (Ty.objField "min" true false Ty.num Ty.objNil)))

/-- Lines 128 to 131: the anonymous dialectOptions object type inside
Config, both fields readonly and optional. -/
def configDialectOptionsTy : Ty :=
  Ty.objField "charset" true true Ty.str
    (Ty.objField "timeout" true true Ty.num Ty.objNil)

/-- Lines 109 to 132: interface Config, the final config options
generated by sequelize. Every field is marked readonly. -/
def Config : Interface :=
  ⟨"Config", none,
   [⟨"database", false, true, false, Ty.str⟩,
    ⟨"dialectModule", true, true, false, Ty.objectTy⟩,
    ⟨"host", true, true, false, Ty.str⟩,
    ⟨"port", true, true, false, Ty.str⟩,
    ⟨"username", false, true, false, Ty.str⟩,
    ⟨"password", false, true, false, Ty.union Ty.str Ty.nullTy⟩,
    ⟨"pool", true, true, false, configPoolTy⟩,
    ⟨"protocol", false, true, false, Ty.strLit "tcp"⟩,
    ⟨"native", false, true, false, Ty.boolean⟩,
    ⟨"ssl", false, true, false, Ty.boolean⟩,
    ⟨"replication", false, true, false, Ty.boolean⟩,
    ⟨"dialectModulePath", false, true, false, Ty.union Ty.nullTy Ty.str⟩,
    ⟨"keepDefaultTimezone", true, true, false, Ty.boolean⟩,
    ⟨"dialectOptions", true, true, false, configDialectOptionsTy⟩]⟩

/-- Line 134: the type alias Dialect. The source writes the literal
mariadb twice, so the union has six members over five distinct
strings. -/
def Dialect : Ty :=
  Ty.union (Ty.strLit "mysql")
    (Ty.union (Ty.strLit "postgres")
      (Ty.union (Ty.strLit "sqlite")
        (Ty.union (Ty.strLit "mariadb")
          (Ty.union (Ty.strLit "mssql") (Ty.strLit "mariadb")))))

/-- Lines 136 to 139: interface RetryOptions. -/
def RetryOptions : Interface :=
  ⟨"RetryOptions", none,
   [⟨"match", true, false, false,
      Ty.array (Ty.union (Ty.named "RegExp") (Ty.union Ty.str (Ty.named "Function")))⟩,
    ⟨"max", true, false, false, Ty.num⟩]⟩

/-- Lines 144 to 317: interface Options extends Logging, the options
for the Sequelize constructor. Every field is optional. -/
def Options : Interface :=
  ⟨"Options", some "Logging",
   [⟨"dialect", true, false, false, Dialect⟩,
    ⟨"dialectModule", true, false, false, Ty.objectTy⟩,
    ⟨"dialectModulePath", true, false, false, Ty.str⟩,
    ⟨"dialectOptions", true, false, false, Ty.objectTy⟩,
    ⟨"storage", true, false, false, Ty.str⟩,
    ⟨"database", true, false, false, Ty.str⟩,
    ⟨"username", true, false, false, Ty.str⟩,
    ⟨"password", true, false, false, Ty.str⟩,
    ⟨"host", true, false, false, Ty.str⟩,
    ⟨"port", true, false, false, Ty.num⟩,
    ⟨"ssl", true, false, false, Ty.boolean⟩,
    ⟨"protocol", true, false, false, Ty.str⟩,
    ⟨"define", true, false, false, Ty.named "ModelOptions"⟩,
    ⟨"query", true, false, false, Ty.named "QueryOptions"⟩,
    ⟨"set", true, false, false, Ty.named "DefaultSetOptions"⟩,
    ⟨"sync", true, false, false, Ty.named "SyncOptions"⟩,
    ⟨"timezone", true, false, false, Ty.str⟩,
    ⟨"omitNull", true, false, false, Ty.boolean⟩,
    ⟨"native", true, false, false, Ty.boolean⟩,
    ⟨"replication", true, false, false, Ty.named "ReplicationOptions"⟩,
    ⟨"pool", true, false, false, Ty.named "PoolOptions"⟩,
    ⟨"quoteIdentifiers", true, false, false, Ty.boolean⟩,
    ⟨"isolationLevel", true, false, false, Ty.str⟩,
    ⟨"typeValidation", true, false, false, Ty.boolean⟩,
    ⟨"standardConformingStrings", true, false, false, Ty.boolean⟩,
    ⟨"hooks", true, false, false, Ty.generic "Partial" (Ty.named "SequelizeHooks")⟩,
    ⟨"retry", true, false, false, Ty.named "RetryOptions"⟩]⟩

/-- Line 319: interface QueryOptionsTransactionRequired, empty. -/
def QueryOptionsTransactionRequired : Interface :=
  ⟨"QueryOptionsTransactionRequired", none, []⟩

/-- All interface declarations of the source file, in source order. -/
def fileInterfaces : List Interface :=
  [SyncOptions, DefaultSetOptions, PoolOptions, ConnectionOptions,
   ReplicationOptions, Config, RetryOptions, Options,
   QueryOptionsTransactionRequired]

-- ---------------------------------------------------------------
-- The Sequelize class: properties and member signatures.
-- ---------------------------------------------------------------

/-- Lines 352 to 449: the declared properties of the Sequelize class:
the static utility references, the static constructor reference, and
the readonly instance properties config, modelManager,
connectionManager and models. -/
def sequelizeProps : List Field :=
  [⟨"fn", false, false, false, Ty.named "typeof fn"⟩,
   ⟨"col", false, false, false, Ty.named "typeof col"⟩,
   ⟨"cast", false, false, false, Ty.named "typeof cast"⟩,
   ⟨"literal", false, false, false, Ty.named "typeof literal"⟩,
   ⟨"and", false, false, false, Ty.named "typeof and"⟩,
   ⟨"or", false, false, false, Ty.named "typeof or"⟩,
   ⟨"json", false, false, false, Ty.named "typeof json"⟩,
   ⟨"where", false, false, false, Ty.named "typeof where"⟩,
   ⟨"Sequelize", false, false, false, Ty.named "typeof Sequelize"⟩,
   ⟨"config", false, true, false, Ty.named "Config"⟩,
   ⟨"modelManager", false, true, false, Ty.named "ModelManager"⟩,
   ⟨"connectionManager", false, true, false, Ty.named "ConnectionManager"⟩,
   ⟨"models", false, true, false, Ty.indexSig (Ty.named "typeof Model")⟩]

/-- Line 428: the static method useCLS. -/
def useCLSSig : MethodSig :=
  ⟨"useCLS", [], [⟨"namespace", false, false, Ty.objectTy⟩],
   Ty.named "typeof Sequelize", false⟩

/-- Lines 480 to 489: the four constructor overloads. A constructor
has no written return type; we record the constructed instance type. -/
def constructorOverloads : List MethodSig :=
  [⟨"constructor", [],
    [⟨"database", false, false, Ty.str⟩,
     ⟨"username", false, false, Ty.str⟩,
     ⟨"password", true, false, Ty.str⟩,
     ⟨"options", true, false, Ty.named "Options"⟩], Ty.thisTy, false⟩,
   ⟨"constructor", [],
    [⟨"database", false, false, Ty.str⟩,
     ⟨"username", false, false, Ty.str⟩,
     ⟨"options", true, false, Ty.named "Options"⟩], Ty.thisTy, false⟩,
   ⟨"constructor", [],
    [⟨"options", true, false, Ty.named "Options"⟩], Ty.thisTy, false⟩,
   ⟨"constructor", [],
    [⟨"uri", false, false, Ty.str⟩,
     ⟨"options", true, false, Ty.named "Options"⟩], Ty.thisTy, false⟩]

/-- Lines 613 to 635: the type of the sql parameter shared by every
query overload: string or an object with a query string and an array
of values. -/
def sqlTy : Ty :=
  Ty.union Ty.str
    (Ty.objField "query" false false Ty.str
      (Ty.objField "values" false false (Ty.array Ty.unknown) Ty.objNil))

/-- The options type QueryOptionsWithType applied to a query type. -/
def qOptsWith (qt : String) : Ty :=
  Ty.generic "QueryOptionsWithType" (Ty.named qt)

/-- A query overload whose options have the given query type and whose
declared result, inside the Promise, is the given type. -/
def querySig (qt : String) (res : Ty) : MethodSig :=
  ⟨"query", [],
   [⟨"sql", false, false, sqlTy⟩,
    ⟨"options", false, false, qOptsWith qt⟩], Ty.promise res, false⟩

/-- Lines 620 to 629: the declared result row description of the
DESCRIBE query overload. -/
def describeColTy : Ty :=
  Ty.objField "type" false false Ty.str
    (Ty.objField "allowNull" false false Ty.boolean
      (Ty.objField "defaultValue" false false Ty.str
        (Ty.objField "primaryKey" false false Ty.boolean
          (Ty.objField "autoIncrement" false false Ty.boolean
            (Ty.objField "comment" false false (Ty.union Ty.str Ty.nullTy)
              Ty.objNil)))))

/-- Lines 630 to 633: the query overload taking QueryOptionsWithModel
and returning a promise of an array of model instances. -/
def queryModelSig : MethodSig :=
  ⟨"query", [⟨"M", some (Ty.named "Model")⟩],
   [⟨"sql", false, false, sqlTy⟩,
    ⟨"options", false, false, Ty.named "QueryOptionsWithModel"⟩],
   Ty.promise (Ty.array (Ty.tyVar "M")), false⟩

/-- Line 634: the SELECT query overload, generic in the row type T. -/
def querySelectSig : MethodSig :=
  ⟨"query", [⟨"T", some Ty.objectTy⟩],
   [⟨"sql", false, false, sqlTy⟩,
    ⟨"options", false, false, qOptsWith "QueryTypes.SELECT"⟩],
   Ty.promise (Ty.array (Ty.tyVar "T")), false⟩

/-- Line 635: the final query overload, taken when no query type is
given: options are optional, of type QueryOptions or
QueryOptionsWithType of RAW, and the declared result is a promise of
an array of unknown. -/
def queryRawSig : MethodSig :=
  ⟨"query", [],
   [⟨"sql", false, false, sqlTy⟩,
    ⟨"options", true, false,
      Ty.union (Ty.named "QueryOptions") (qOptsWith "QueryTypes.RAW")⟩],
   Ty.promise (Ty.array Ty.unknown), false⟩

/-- Lines 613 to 635: the eleven query overloads, in source order. -/
def queryOverloads : List MethodSig :=
  [querySig "QueryTypes.UPDATE" (Ty.pair Ty.undef Ty.num),
   querySig "QueryTypes.BULKUPDATE" Ty.num,
   querySig "QueryTypes.INSERT" (Ty.pair Ty.num Ty.num),
   querySig "QueryTypes.UPSERT" Ty.num,
   querySig "QueryTypes.DELETE" Ty.voidTy,
   querySig "QueryTypes.BULKDELETE" Ty.num,
   querySig "QueryTypes.SHOWTABLES" (Ty.array Ty.str),
   querySig "QueryTypes.DESCRIBE" (Ty.indexSig describeColTy),
   queryModelSig,
   querySelectSig,
   queryRawSig]

/-- The declared result type of the query overload whose options type
is QueryOptionsWithType of the given query type. -/
def queryRet (qt : String) : Option Ty :=
  (queryOverloads.find? (fun m => m.params.any (fun p => p.ty == qOptsWith qt))).map
    MethodSig.ret

/-- Line 733: authenticate. -/
def authenticateSig : MethodSig :=
  ⟨"authenticate", [], [⟨"options", true, false, Ty.named "QueryOptions"⟩],
   Ty.promise Ty.voidTy, false⟩

/-- Line 734: validate. -/
def validateSig : MethodSig :=
  ⟨"validate", [], [⟨"options", true, false, Ty.named "QueryOptions"⟩],
   Ty.promise Ty.voidTy, false⟩

/-- Lines 781 to 783: the three transaction overloads, in source
order. -/
def transactionOverloads : List MethodSig :=
  [⟨"transaction", [⟨"T", none⟩],
    [⟨"options", false, false, Ty.named "TransactionOptions"⟩,
     ⟨"autoCallback", false, false,
       Ty.fn (Ty.named "Transaction") (Ty.generic "PromiseLike" (Ty.tyVar "T"))⟩],
    Ty.promise (Ty.tyVar "T"), false⟩,
   ⟨"transaction", [⟨"T", none⟩],
    [⟨"autoCallback", false, false,
       Ty.fn (Ty.named "Transaction") (Ty.generic "PromiseLike" (Ty.tyVar "T"))⟩],
    Ty.promise (Ty.tyVar "T"), false⟩,
   ⟨"transaction", [],
    [⟨"options", true, false, Ty.named "TransactionOptions"⟩],
    Ty.promise (Ty.named "Transaction"), false⟩]

/-- Lines 494 to 797: every instance method signature of the Sequelize
class, in source order, query and transaction overloads included. -/
def instanceMethods : List MethodSig :=
  [⟨"getDialect", [], [], Ty.str, false⟩,
   ⟨"getQueryInterface", [], [], Ty.named "QueryInterface", false⟩,
   ⟨"define", [],
    [⟨"modelName", false, false, Ty.str⟩,
     ⟨"attributes", false, false, Ty.named "ModelAttributes"⟩,
     ⟨"options", true, false, Ty.named "ModelOptions"⟩],
    Ty.named "typeof Model", false⟩,
   ⟨"model", [], [⟨"modelName", false, false, Ty.str⟩],
    Ty.named "typeof Model", false⟩,
   ⟨"isDefined", [], [⟨"modelName", false, false, Ty.str⟩], Ty.boolean, false⟩,
   ⟨"import", [⟨"T", some (Ty.named "typeof Model")⟩],
    [⟨"path", false, false, Ty.str⟩,
     ⟨"defineFunction", true, false,
       Ty.fn2 (Ty.named "Sequelize") (Ty.named "typeof DataTypes") (Ty.tyVar "T")⟩],
    Ty.tyVar "T", false⟩] ++
  queryOverloads ++
  [⟨"random", [], [], Ty.named "Fn", false⟩,
   ⟨"set", [],
    [⟨"variables", false, false, Ty.objectTy⟩,
     ⟨"options", false, false, Ty.named "QueryOptionsTransactionRequired"⟩],
    Ty.promise Ty.unknown, false⟩,
   ⟨"escape", [],
    [⟨"value", false, false, Ty.union Ty.str (Ty.union Ty.num (Ty.named "Date"))⟩],
    Ty.str, false⟩,
   ⟨"createSchema", [],
    [⟨"schema", false, false, Ty.str⟩,
     ⟨"options", false, false, Ty.named "Logging"⟩],
    Ty.promise Ty.unknown, false⟩,
   ⟨"showAllSchemas", [], [⟨"options", false, false, Ty.named "Logging"⟩],
    Ty.promise (Ty.array Ty.objectTy), false⟩,
   ⟨"dropSchema", [],
    [⟨"schema", false, false, Ty.str⟩,
     ⟨"options", false, false, Ty.named "Logging"⟩],
    Ty.promise (Ty.array Ty.unknown), false⟩,
   ⟨"dropAllSchemas", [], [⟨"options", false, false, Ty.named "Logging"⟩],
    Ty.promise (Ty.array Ty.unknown), false⟩,
   ⟨"sync", [], [⟨"options", true, false, Ty.named "SyncOptions"⟩],
    Ty.promise Ty.thisTy, false⟩,
   ⟨"truncate", [], [⟨"options", true, false, Ty.named "DestroyOptions"⟩],
    Ty.promise (Ty.array Ty.unknown), false⟩,
   ⟨"drop", [], [⟨"options", true, false, Ty.named "DropOptions"⟩],
    Ty.promise (Ty.array Ty.unknown), false⟩,
   authenticateSig,
   validateSig] ++
  transactionOverloads ++
  [⟨"close", [], [], Ty.promise Ty.voidTy, false⟩,
   ⟨"databaseVersion", [], [], Ty.promise Ty.str, false⟩]

-- ---------------------------------------------------------------
-- Free function declarations at the end of the file.
-- ---------------------------------------------------------------

/-- Lines 866 and 867: the type aliases AttributeType and LogicType. -/
def AttributeType : Ty :=
  Ty.union (Ty.named "Fn")
    (Ty.union (Ty.named "Col")
      (Ty.union (Ty.named "Literal")
        (Ty.union (Ty.named "ModelAttributeColumnOptions") Ty.str)))

/-- Line 867: the type alias LogicType. -/
def LogicType : Ty :=
  Ty.union (Ty.named "Fn")
    (Ty.union (Ty.named "Col")
      (Ty.union (Ty.named "Literal")
        (Ty.union (Ty.named "OrOperator")
          (Ty.union (Ty.named "AndOperator")
            (Ty.union (Ty.named "WhereOperators") Ty.str)))))

/-- The argument type shared by the free functions and, or. -/
def whereArgTy : Ty :=
  Ty.union (Ty.named "WhereOperators")
    (Ty.union (Ty.named "WhereAttributeHash") (Ty.named "Where"))

/-- Lines 817 to 888: the exported free function signatures. -/
def freeFunctions : List MethodSig :=
  [⟨"fn", [],
    [⟨"fn", false, false, Ty.str⟩,
     ⟨"args", false, true, Ty.array Ty.unknown⟩], Ty.named "Fn", false⟩,
   ⟨"col", [], [⟨"col", false, false, Ty.str⟩], Ty.named "Col", false⟩,
   ⟨"cast", [],
    [⟨"val", false, false, Ty.unknown⟩,
     ⟨"type", false, false, Ty.str⟩], Ty.named "Cast", false⟩,
   ⟨"literal", [], [⟨"val", false, false, Ty.str⟩], Ty.named "Literal", false⟩,
   ⟨"and", [], [⟨"args", false, true, Ty.array whereArgTy⟩],
    Ty.named "AndOperator", false⟩,
   ⟨"or", [], [⟨"args", false, true, Ty.array whereArgTy⟩],
    Ty.named "OrOperator", false⟩,
   ⟨"json", [],
    [⟨"conditionsOrPath", false, false, Ty.union Ty.str Ty.objectTy⟩,
     ⟨"value", true, false, Ty.union Ty.str (Ty.union Ty.num Ty.boolean)⟩],
    Ty.named "Json", false⟩,
   ⟨"where", [],
    [⟨"attr", false, false, AttributeType⟩,
     ⟨"comparator", false, false, Ty.str⟩,
     ⟨"logic", false, false, LogicType⟩], Ty.named "Where", false⟩,
   ⟨"where", [],
    [⟨"attr", false, false, AttributeType⟩,
     ⟨"logic", false, false, LogicType⟩], Ty.named "Where", false⟩]

/-- Every function-like declaration of the source file: the
constructor overloads, the static method, every instance method
signature, and the exported free functions. -/
def allFileMembers : List MethodSig :=
  constructorOverloads ++ [useCLSSig] ++ instanceMethods ++ freeFunctions

/-- Modelled from the spec: the Transaction type is declared in the
repository file lib/transaction, which is not under src; the spec
names transaction start, commit and rollback as the declared call
surface, so we model commit and rollback as members of Transaction
returning promises. -/
def transactionMembers : List String := ["commit", "rollback"]

-- ---------------------------------------------------------------
-- A small value semantics for the base types, used to compare the
-- admissible values of the differently typed port fields.
-- ---------------------------------------------------------------

/-- A fragment of the JavaScript values that the primitive types of
the source file classify. Numeric values are modelled as integers,
which covers every port number. -/
inductive JSVal where
  | strV : String → JSVal
  | numV : Int → JSVal
  | boolV : Bool → JSVal
  | nullV : JSVal
  | undefV : JSVal
  deriving DecidableEq

/-- Whether a value is admissible at a declared primitive or union
type. -/
def Ty.hasVal : Ty → JSVal → Bool
  | Ty.str, JSVal.strV _ => true
  | Ty.num, JSVal.numV _ => true
  | Ty.boolean, JSVal.boolV _ => true
  | Ty.nullTy, JSVal.nullV => true
  | Ty.undef, JSVal.undefV => true
  | Ty.strLit s, JSVal.strV t => s == t
  | Ty.union a b, v => a.hasVal v || b.hasVal v
  | _, _ => false

-- ---------------------------------------------------------------
-- Auxiliary definitions for the claims.
-- ---------------------------------------------------------------

/-- The configuration interfaces that the passive-shape claim names:
Options, PoolOptions, SyncOptions and ConnectionOptions. -/
def claimConfigInterfaces : List Interface :=
  [Options, PoolOptions, SyncOptions, ConnectionOptions]

/-- Result shape that the specification claim asserts for a query call
with no query type given: a promise of a pair of an array of unknown
results and a metadata object. This definition follows the words of
the claim, to be compared with the declared overload queryRawSig. -/
def specClaimedRawResultTy : Ty :=
  Ty.promise (Ty.pair (Ty.array Ty.unknown) Ty.objectTy)

/-- The names of the Sequelize operations that the error-handling
claim lists as fallible. -/
def fallibleNames : List String :=
  ["query", "set", "createSchema", "showAllSchemas", "dropSchema",
   "dropAllSchemas", "sync", "truncate", "drop", "authenticate",
   "validate", "transaction", "close", "databaseVersion"]

/-- The passive-shape claim as stated: every field of Options,
PoolOptions, SyncOptions and ConnectionOptions is optional,
ReplicationOptions has exactly the fields read and write, and no
configuration interface declares any method. -/
def passiveShapeClaim : Prop :=
  (claimConfigInterfaces.all (fun i => i.fields.all (fun f => f.optional))) = true ∧
  ReplicationOptions.fields.map Field.name = ["read", "write"] ∧
  ((claimConfigInterfaces ++ [ReplicationOptions]).all
    (fun i => i.fields.all (fun f => !f.isMethod))) = true

-- ---------------------------------------------------------------
-- Claim theorems.
-- ---------------------------------------------------------------

/-- Claim C1, counterexample: the claim states that with no query type
given the declared result shape is an array of unknown results
together with a metadata object; the declared overload on line 635
returns a promise of an array of unknown, with no separately typed
metadata object. -/
theorem C1_raw_result_counterexample :
    queryRawSig.ret ≠ specClaimedRawResultTy := by decide

/-- Claim C1, amended: the declared result shape of Sequelize.query is
determined by the query kind in the options: UPDATE gives a promise of
a pair of undefined and a number, INSERT a pair of two numbers,
BULKUPDATE, BULKDELETE and UPSERT a single number, DELETE void,
SHOWTABLES an array of strings, SELECT an array of result objects, and
with no query type given an array of unknown values. -/
theorem C1_query_result_shapes :
    queryRet "QueryTypes.UPDATE" = some (Ty.promise (Ty.pair Ty.undef Ty.num)) ∧
    queryRet "QueryTypes.INSERT" = some (Ty.promise (Ty.pair Ty.num Ty.num)) ∧
    queryRet "QueryTypes.BULKUPDATE" = some (Ty.promise Ty.num) ∧
    queryRet "QueryTypes.BULKDELETE" = some (Ty.promise Ty.num) ∧
    queryRet "QueryTypes.UPSERT" = some (Ty.promise Ty.num) ∧
    queryRet "QueryTypes.DELETE" = some (Ty.promise Ty.voidTy) ∧
    queryRet "QueryTypes.SHOWTABLES" = some (Ty.promise (Ty.array Ty.str)) ∧
    queryRet "QueryTypes.SELECT" = some (Ty.promise (Ty.array (Ty.tyVar "T"))) ∧
    querySelectSig.typeParams = [⟨"T", some Ty.objectTy⟩] ∧
    queryRawSig.params.map (fun p => (p.name, p.optional)) =
      [("sql", false), ("options", true)] ∧
    queryRawSig.ret = Ty.promise (Ty.array Ty.unknown) := by decide

/-- Claim C2: the source file consists only of type declarations, and
no declared member carries a function body: every constructor
overload, static method, instance method signature and free function
of the file is a pure signature, and every interface is a list of
fields. -/
theorem C2_declarations_only :
    (allFileMembers.all (fun m => !m.hasBody)) = true ∧
    allFileMembers.length = 48 ∧
    fileInterfaces.length = 9 ∧
    (sequelizeProps.all (fun f => !f.isMethod)) = true := by decide

/-- Claim C3: every fallible operation declared on the Sequelize class
is present among the instance methods, every overload of each returns
a Promise, and no parameter or result type of those overloads mentions
an Error shape. -/
theorem C3_fallible_ops_return_promises :
    (fallibleNames.all (fun n => instanceMethods.any (fun m => m.name == n))) = true ∧
    ((instanceMethods.filter (fun m => fallibleNames.contains m.name)).all
      (fun m => m.ret.isPromise)) = true ∧
    ((instanceMethods.filter (fun m => fallibleNames.contains m.name)).all
      (fun m => !(m.ret.mentionsName "Error") &&
        m.params.all (fun p => !(p.ty.mentionsName "Error")))) = true := by decide

/-- Claim C4: the declared transaction surface has exactly three
overloads: options plus automatic callback giving a promise of the
callback result type, callback only giving the same, and optional
options only giving a promise of a Transaction, whose commit and
rollback members are invoked by the caller. -/
theorem C4_transaction_overloads :
    transactionOverloads.map
        (fun m => (m.params.map (fun p => (p.name, p.optional, p.ty)), m.ret)) =
      [([("options", false, Ty.named "TransactionOptions"),
         ("autoCallback", false,
          Ty.fn (Ty.named "Transaction") (Ty.generic "PromiseLike" (Ty.tyVar "T")))],
        Ty.promise (Ty.tyVar "T")),
       ([("autoCallback", false,
          Ty.fn (Ty.named "Transaction") (Ty.generic "PromiseLike" (Ty.tyVar "T")))],
        Ty.promise (Ty.tyVar "T")),
       ([("options", true, Ty.named "TransactionOptions")],
        Ty.promise (Ty.named "Transaction"))] ∧
    instanceMethods.filter (fun m => m.name == "transaction") = transactionOverloads ∧
    transactionMembers = ["commit", "rollback"] := by decide

/-- Claim C5, counterexample: the claim states that no configuration
interface declares any method, but PoolOptions declares the optional
method validate with method syntax, so the passive-shape claim as
stated is false. -/
theorem C5_no_method_counterexample : ¬ passiveShapeClaim := by
  unfold passiveShapeClaim
  decide

/-- Claim C5, amended: every field of Options, PoolOptions,
SyncOptions and ConnectionOptions is optional, ReplicationOptions
requires exactly the fields read, an array of ConnectionOptions, and
write, a single ConnectionOptions, and the only method declared by any
of these interfaces is the optional validate callback of
PoolOptions. -/
theorem C5_passive_config_shapes :
    (claimConfigInterfaces.all (fun i => i.fields.all (fun f => f.optional))) = true ∧
    ReplicationOptions.fields =
      [⟨"read", false, false, false, Ty.array (Ty.named "ConnectionOptions")⟩,
       ⟨"write", false, false, false, Ty.named "ConnectionOptions"⟩] ∧
    ([Options, SyncOptions, ConnectionOptions, ReplicationOptions].all
      (fun i => i.fields.all (fun f => !f.isMethod))) = true ∧
    (PoolOptions.fields.filter (fun f => f.isMethod)).map Field.name = ["validate"] ∧
    (PoolOptions.fields.find? (fun f => f.name == "validate")).map Field.optional =
      some true := by decide

/-- Claim C6: every field of Config is readonly, the required fields
are exactly database, username, password, protocol, native, ssl,
replication and dialectModulePath, protocol is fixed to the literal
tcp, password admits null, and the config property of the Sequelize
class is a readonly field of type Config. -/
theorem C6_config_shape :
    (Config.fields.all Field.readonly) = true ∧
    (Config.fields.filter (fun f => !f.optional)).map Field.name =
      ["database", "username", "password", "protocol", "native", "ssl",
       "replication", "dialectModulePath"] ∧
    fieldTy Config "protocol" = some (Ty.strLit "tcp") ∧
    fieldTy Config "password" = some (Ty.union Ty.str Ty.nullTy) ∧
    sequelizeProps.find? (fun f => f.name == "config") =
      some ⟨"config", false, true, false, Ty.named "Config"⟩ := by decide

/-- Claim C7: every value admitted by the Dialect type is one of the
five strings mysql, postgres, sqlite, mariadb and mssql, each of the
five is admitted, and getDialect returns a string. -/
theorem C7_dialect_values :
    (∀ v : JSVal, Ty.hasVal Dialect v = true →
      v = JSVal.strV "mysql" ∨ v = JSVal.strV "postgres" ∨
      v = JSVal.strV "sqlite" ∨ v = JSVal.strV "mariadb" ∨
      v = JSVal.strV "mssql") ∧
    (["mysql", "postgres", "sqlite", "mariadb", "mssql"].all
      (fun s => Ty.hasVal Dialect (JSVal.strV s))) = true ∧
    (instanceMethods.find? (fun m => m.name == "getDialect")).map MethodSig.ret =
      some Ty.str := by
  refine ⟨?_, by decide, by decide⟩
  intro v h
  cases v with
  | strV s =>
    simp [Dialect, Ty.hasVal] at h
    rcases h with h | h | h | h | h | h <;> subst h <;> tauto
  | numV n => simp [Dialect, Ty.hasVal] at h
  | boolV b => simp [Dialect, Ty.hasVal] at h
  | nullV => simp [Dialect, Ty.hasVal] at h
  | undefV => simp [Dialect, Ty.hasVal] at h

/-- Witness for claim C7: the string sqlite is a Dialect value and is
one of the five dialect strings. -/
theorem C7_dialect_values_witness :
    Ty.hasVal Dialect (JSVal.strV "sqlite") = true ∧
    (JSVal.strV "sqlite" = JSVal.strV "mysql" ∨
     JSVal.strV "sqlite" = JSVal.strV "postgres" ∨
     JSVal.strV "sqlite" = JSVal.strV "sqlite" ∨
     JSVal.strV "sqlite" = JSVal.strV "mariadb" ∨
     JSVal.strV "sqlite" = JSVal.strV "mssql") :=
  ⟨by decide, C7_dialect_values.1 (JSVal.strV "sqlite") (by decide)⟩

/-- Claim C8: the pool tuning knobs max, min, idle and acquire are
passive optional fields of type number, and no declared member of the
file carries a body, so no interleaving behavior is implemented in
this code. -/
theorem C8_pool_knobs_passive :
    (["max", "min", "idle", "acquire"].all (fun n =>
      PoolOptions.fields.any
        (fun f => f.name == n && f.optional && !f.isMethod && f.ty == Ty.num))) = true ∧
    (allFileMembers.all (fun m => !m.hasBody)) = true := by decide

/-- Claim C9: validate and authenticate are declared with identical
parameter lists, type parameters and return type, namely one optional
QueryOptions parameter and a promise of void. -/
theorem C9_validate_authenticate_identical :
    validateSig.params = authenticateSig.params ∧
    validateSig.ret = authenticateSig.ret ∧
    validateSig.typeParams = authenticateSig.typeParams ∧
    authenticateSig.params = [⟨"options", true, false, Ty.named "QueryOptions"⟩] ∧
    authenticateSig.ret = Ty.promise Ty.voidTy := by decide

/-- Claim C10: the port field is typed as string or number in
ConnectionOptions, as number in Options and as string in Config, and
no value admitted by the number type is admitted by the string type,
so a numeric Options port is not directly admissible as a Config
port. -/
theorem C10_port_types_inconsistent :
    fieldTy ConnectionOptions "port" = some (Ty.union Ty.str Ty.num) ∧
    fieldTy Options "port" = some Ty.num ∧
    fieldTy Config "port" = some Ty.str ∧
    (∀ v : JSVal, Ty.hasVal Ty.num v = true → Ty.hasVal Ty.str v = false) := by
  refine ⟨by decide, by decide, by decide, ?_⟩
  intro v h
  cases v with
  | strV s => exact Bool.noConfusion h
  | numV n => rfl
  | boolV b => rfl
  | nullV => rfl
  | undefV => rfl

/-- Witness for claim C10: the numeric port value 5432 is admitted by
the number type and rejected by the string type. -/
theorem C10_port_types_witness :
    Ty.hasVal Ty.num (JSVal.numV 5432) = true ∧
    Ty.hasVal Ty.str (JSVal.numV 5432) = false :=
  ⟨by decide, C10_port_types_inconsistent.2.2.2 (JSVal.numV 5432) (by decide)⟩

end SequelizeDTS
